import Mathlib

/-!
# Verification of the ident-server core (`src/identserv.cpp`)

Shallow embedding of the ident-response resolution logic
(`CIdentServer::GetResponse`, `CIdentServer::AreIPStringsEqual`) and of the
demand-driven listener lifecycle (`CIdentServer::IncreaseUseCount`,
`CIdentServer::DecreaseUseCount`, `CIdentServerMod::OnIRCConnecting`,
`CIdentServerMod::NoLongerNeedsIdentServer`), together with theorems settling
the specification's claims about them.

Machine integers (`unsigned short`) are modelled as `Nat` reduced mod 2^16
where the C code truncates; C strings are Lean `String`s (byte/char identified,
all relevant data is ASCII).
-/

namespace IdentServ

/-! ## String primitives from the host library (ZNC `CString`)

`CString::Equals` defaults to case-insensitive comparison (`strcasecmp`), and
`CString::TrimPrefix_n` checks its pattern case-insensitively
(`Equals(sPrefix, false, sPrefix.length())`) before chomping it.  In the C
locale `tolower` lowercases exactly the ASCII range, which `Char.toLower`
matches on the ASCII strings involved here. -/

/-- Charwise `tolower`, the normalisation used by `strcasecmp`. -/
def lowerChars (l : List Char) : List Char := l.map Char.toLower

/-- Model of `CString::Equals(s)` with its default case-insensitive mode:
`strcasecmp(a, b) == 0`. -/
def strCaseEq (a b : String) : Bool := lowerChars a.data == lowerChars b.data

/-- The IPv4-mapped-IPv6 marker trimmed by `AreIPStringsEqual`. -/
def mappedV6 : String := "::ffff:"

/-- Model of `sIP.TrimPrefix_n("::ffff:")`: if the string starts with the
marker (case-insensitively, as `CString::TrimPrefix` checks via `Equals` with
`uLen = sPrefix.length()`), drop it; otherwise return the string unchanged. -/
def trimV6 (s : String) : String :=
  if strCaseEq (String.mk (s.data.take mappedV6.data.length)) mappedV6 then
    String.mk (s.data.drop mappedV6.data.length)
  else s

/-- `CIdentServer::AreIPStringsEqual` (identserv.cpp line 217):
`sIP1.TrimPrefix_n("::ffff:").Equals(sIP2.TrimPrefix_n("::ffff:"))`. -/
def AreIPStringsEqual (sIP1 sIP2 : String) : Bool :=
  strCaseEq (trimV6 sIP1) (trimV6 sIP2)

/-! ## Parsing: `sscanf(sLine.c_str(), "%hu , %hu", &uLocalPort, &uRemotePort)`

C99 / glibc semantics: each `%hu` first skips whitespace, then matches an
optionally signed decimal numeral whose value is truncated to
`unsigned short` (mod 2^16, with `-v` converted as `2^16 - v` mod 2^16);
a literal blank in the format skips any amount of whitespace (including none);
`,` must match literally.  `sscanf` succeeds (returns 2) as soon as both
conversions match — any trailing characters of the line are ignored. -/

/-- C `isspace` in the C locale. -/
def isCSpace (c : Char) : Bool :=
  c = ' ' || c = '\t' || c = '\n' || c = '\x0b' || c = '\x0c' || c = '\r'

/-- Skip a maximal run of whitespace. -/
def skipWs : List Char → List Char
  | [] => []
  | c :: cs => if isCSpace c then skipWs cs else c :: cs

/-- Consume a maximal run of decimal digits, accumulating their value. -/
def digitsVal (acc : Nat) : List Char → Nat × List Char
  | [] => (acc, [])
  | c :: cs =>
    if c.isDigit then digitsVal (acc * 10 + (c.toNat - 48)) cs else (acc, c :: cs)

/-- Match one or more decimal digits; `none` when the next char is no digit. -/
def parseDigits (cs : List Char) : Option (Nat × List Char) :=
  match cs with
  | c :: _ => if c.isDigit then some (digitsVal 0 cs) else none
  | [] => none

/-- One `%hu` conversion: skip whitespace, optional sign, digits, value
truncated to 16 bits. -/
def parseHu (cs : List Char) : Option (Nat × List Char) :=
  match skipWs cs with
  | '-' :: rest => (parseDigits rest).map (fun p => ((65536 - p.1 % 65536) % 65536, p.2))
  | '+' :: rest => (parseDigits rest).map (fun p => (p.1 % 65536, p.2))
  | other => (parseDigits other).map (fun p => (p.1 % 65536, p.2))

/-- Model of `sscanf(sLine, "%hu , %hu", &a, &b)`: the pair of assignments the
call performs.  `sscanf` stores each `%hu` into its argument as soon as that
conversion completes and stops at the first failure, so the possible outcomes
are: nothing assigned (return 0 or EOF), only the first assigned (first `%hu`
matched but the literal `,` or the second `%hu` failed — return 1), or both
assigned (return 2, trailing input ignored).  The C return value compared
against 2 at identserv.cpp line 139 is the number of `some`s. -/
def sscanfHuHu (s : String) : Option Nat × Option Nat :=
  match parseHu s.data with
  | none => (none, none)
  | some (a, r1) =>
    match skipWs r1 with
    | ',' :: r2 =>
      match parseHu r2 with
      | none => (some a, none)
      | some (b, _) => (some a, some b)
    | _ => (some a, none)

/-! ## The connection registry snapshot

`GetResponse` iterates all users and, per user, all their networks; each
network exposes its IRC socket (possibly null).  The user/network nesting only
routes the double `break` on an exact match — which is a full stop either
way — so the snapshot is its flat enumeration: one entry per network, in
enumeration order, carrying the owning user's ident. -/

/-- The data `GetResponse` reads off a non-null `CIRCSock`. -/
structure SockInfo where
  localIP : String
  localPort : Nat
  remoteIP : String
  remotePort : Nat
  deriving DecidableEq, Repr

/-- One registered network: its IRC socket (`none` models a null
`GetIRCSock()`) and its user's `GetIdent()`. -/
structure NetEntry where
  sock : Option SockInfo
  ident : String
  deriving DecidableEq, Repr

/-- The exact-match test (identserv.cpp lines 158-160). -/
def exactMatch (pSock : SockInfo) (sSocketIP : String) (uLocalPort uRemotePort : Nat) : Bool :=
  pSock.localPort == uLocalPort && pSock.remotePort == uRemotePort &&
    AreIPStringsEqual pSock.localIP sSocketIP

/-- The fallback-match test (identserv.cpp lines 171-173); the remote-IP
comparison is `std::string` equality, hence case-sensitive. -/
def fallbackMatch (pSock : SockInfo) (sSocketIP sRemoteIP : String) (uRemotePort : Nat) : Bool :=
  pSock.remoteIP == sRemoteIP && pSock.remotePort == uRemotePort &&
    AreIPStringsEqual pSock.localIP sSocketIP

/-- The scan of identserv.cpp lines 143-183 over the flattened snapshot.
`acc` is the pair `(sResponseType, sAddInfo)` accumulated so far.  A null
socket is skipped; an exact match overwrites the pair and breaks out of both
loops; a fallback match overwrites the pair and keeps scanning. -/
def scanLoop (sSocketIP sRemoteIP : String) (uLocalPort uRemotePort : Nat) :
    List NetEntry → String × String → String × String
  | [], acc => acc
  | e :: rest, acc =>
    match e.sock with
    | none => scanLoop sSocketIP sRemoteIP uLocalPort uRemotePort rest acc
    | some pSock =>
      if exactMatch pSock sSocketIP uLocalPort uRemotePort then
        ("USERID", "UNIX : " ++ e.ident)
      else if fallbackMatch pSock sSocketIP sRemoteIP uRemotePort then
        scanLoop sSocketIP sRemoteIP uLocalPort uRemotePort rest ("USERID", "UNIX : " ++ e.ident)
      else
        scanLoop sSocketIP sRemoteIP uLocalPort uRemotePort rest acc

/-- The reply line built at identserv.cpp line 186:
`CString(uLocalPort) + ", " + CString(uRemotePort) + " : " + sResponseType + " : " + sAddInfo`. -/
def mkReply (uLocalPort uRemotePort : Nat) (sResponseType sAddInfo : String) : String :=
  toString uLocalPort ++ ", " ++ toString uRemotePort ++ " : " ++ sResponseType ++ " : " ++ sAddInfo

/-- `CIdentServer::GetResponse` (identserv.cpp lines 129-198), with the global
user map injected as the `snapshot` parameter.  `uLocalPort`/`uRemotePort`
are initialised to 0 (lines 131-132) and overwritten by whatever `sscanf`
assigned, whether or not the whole format matched (`Option.getD _ 0`).  Only
when `sscanf` returned 2 (both conversions assigned) does the scan run, with
the pair starting from `("ERROR", "NO-USER")`; otherwise the reply carries
`("ERROR", "INVALID-PORT")` and the partially assigned ports.  (The code
computes the scan's pair once; the two projections below are of that one
value.) -/
def GetResponse (sLine sSocketIP sRemoteIP : String) (snapshot : List NetEntry) : String :=
  match sscanfHuHu sLine with
  | (some uLocalPort, some uRemotePort) =>
    mkReply uLocalPort uRemotePort
      (scanLoop sSocketIP sRemoteIP uLocalPort uRemotePort snapshot ("ERROR", "NO-USER")).1
      (scanLoop sSocketIP sRemoteIP uLocalPort uRemotePort snapshot ("ERROR", "NO-USER")).2
  | (a, b) => mkReply (a.getD 0) (b.getD 0) "ERROR" "INVALID-PORT"

/-! ## Listener lifecycle

`CIdentServer` keeps `std::set<CIRCNetwork*> m_activeUsers`; consumers are
opaque network pointers, modelled as `Nat` tokens in a `Finset`.
`CIdentServerMod` keeps `m_identServer` (null when the listener is closed —
`some s` here carries the live server's consumer set) and the sticky
`m_listenFailed` flag.  The `opens`/`closes` counters instrument the
"Starting up IDENT listener" (successful `StartListening`) and
"Closing down IDENT listener" (`Close()`) transitions so event counts can be
stated. -/

/-- `CIdentServer::IncreaseUseCount` (identserv.cpp lines 112-122): returns
`false` and leaves the set alone when the consumer is already present,
otherwise inserts it and returns `true`. -/
def IncreaseUseCount (s : Finset Nat) (pUser : Nat) : Bool × Finset Nat :=
  if pUser ∈ s then (false, s) else (true, insert pUser s)

/-- `CIdentServer::DecreaseUseCount` (identserv.cpp lines 124-127): erase,
reporting whether anything was erased. -/
def DecreaseUseCount (s : Finset Nat) (pUser : Nat) : Bool × Finset Nat :=
  (decide (pUser ∈ s), s.erase pUser)

/-- The module state relevant to the listener lifecycle. -/
structure ModState where
  identServer : Option (Finset Nat)
  listenFailed : Bool
  opens : Nat
  closes : Nat
  deriving DecidableEq

/-- `MODCONSTRUCTOR` (identserv.cpp lines 37-42): no server, flag clear. -/
def initState : ModState := ⟨none, false, 0, 0⟩

/-- A lifecycle operation.  `reg n bindOk` is `OnIRCConnecting` for network
`n`, with `bindOk` the outcome `StartListening()` would have (consulted only
when the listener must actually be opened); `dereg n` is
`NoLongerNeedsIdentServer` for network `n`. -/
inductive Op where
  | reg (n : Nat) (bindOk : Bool)
  | dereg (n : Nat)
  deriving DecidableEq, Repr

/-- One lifecycle step.

`reg` (identserv.cpp lines 255-282): if no server exists, create one and try
to listen — on failure set `m_listenFailed`, drop the server, and return
without adding the consumer; on success clear `m_listenFailed` and fall
through to `IncreaseUseCount` on the fresh empty set.  If a server exists,
just `IncreaseUseCount` (the flag is untouched).

`dereg` (identserv.cpp lines 284-299): nothing without a server; otherwise
`DecreaseUseCount`, and when the set has become empty, close and drop the
server. -/
def stepOp (st : ModState) : Op → ModState
  | .reg n bindOk =>
    match st.identServer with
    | none =>
      if bindOk then
        { st with identServer := some (IncreaseUseCount ∅ n).2, listenFailed := false,
                  opens := st.opens + 1 }
      else
        { st with listenFailed := true }
    | some s =>
      { st with identServer := some (IncreaseUseCount s n).2 }
  | .dereg n =>
    match st.identServer with
    | none => st
    | some s =>
      if (DecreaseUseCount s n).2 = ∅ then
        { st with identServer := none, closes := st.closes + 1 }
      else
        { st with identServer := some (DecreaseUseCount s n).2 }

/-- Run a list of lifecycle operations. -/
def run (st : ModState) (ops : List Op) : ModState := ops.foldl stepOp st

/-- The listener is open iff a server object exists. -/
def listenerOpen (st : ModState) : Bool := st.identServer.isSome

/-- The consumer set (empty when the listener is closed: no server, no set). -/
def activeSet (st : ModState) : Finset Nat := st.identServer.getD ∅

/-- The lifecycle invariant: the listening socket is open iff the consumer
set is non-empty. -/
def listenerInv (st : ModState) : Prop := listenerOpen st = true ↔ activeSet st ≠ ∅

/-! ## Classifying snapshot entries -/

/-- An entry whose (non-null) socket passes the exact-match test. -/
def isExact (sSocketIP : String) (uLocalPort uRemotePort : Nat) (e : NetEntry) : Bool :=
  match e.sock with
  | some pSock => exactMatch pSock sSocketIP uLocalPort uRemotePort
  | none => false

/-- An entry whose (non-null) socket passes the fallback-match test. -/
def isFallback (sSocketIP sRemoteIP : String) (uRemotePort : Nat) (e : NetEntry) : Bool :=
  match e.sock with
  | some pSock => fallbackMatch pSock sSocketIP sRemoteIP uRemotePort
  | none => false

/-- The last element of the list satisfying `P`, if any. -/
def lastMatch (P : NetEntry → Bool) : List NetEntry → Option NetEntry
  | [] => none
  | e :: rest =>
    match lastMatch P rest with
    | some x => some x
    | none => if P e then some e else none

/-! ## Scan lemmas -/

/-- If some entry of the snapshot is an exact match, the scan returns the
first such entry's identity whatever was accumulated before. -/
theorem scanLoop_of_find_exact (ip rip : String) (lp rp : Nat) :
    ∀ (l : List NetEntry) (acc : String × String) {e : NetEntry},
      l.find? (isExact ip lp rp) = some e →
      scanLoop ip rip lp rp l acc = ("USERID", "UNIX : " ++ e.ident) := by
  intro l
  induction l with
  | nil => intro acc e h; simp at h
  | cons a rest ih =>
    intro acc e h
    cases ha : a.sock with
    | none =>
      have hx : isExact ip lp rp a = false := by simp [isExact, ha]
      rw [List.find?_cons_of_neg _ (by simp [hx])] at h
      simpa [scanLoop, ha] using ih acc h
    | some pSock =>
      by_cases hx : exactMatch pSock ip lp rp = true
      · have : isExact ip lp rp a = true := by simp [isExact, ha, hx]
        rw [List.find?_cons_of_pos _ this] at h
        cases h
        simp [scanLoop, ha, hx]
      · have hxa : isExact ip lp rp a = false := by
          simp only [isExact, ha]; exact Bool.eq_false_iff.mpr hx
        rw [List.find?_cons_of_neg _ (by simp [hxa])] at h
        by_cases hf : fallbackMatch pSock ip rip rp = true
        · simpa [scanLoop, ha, hx, hf] using ih _ h
        · simpa [scanLoop, ha, hx, hf] using ih acc h

/-- With no exact match anywhere, the scan returns the identity of the LAST
fallback match, or the accumulator when there is none. -/
theorem scanLoop_of_no_exact (ip rip : String) (lp rp : Nat) :
    ∀ (l : List NetEntry) (acc : String × String),
      (∀ x ∈ l, isExact ip lp rp x = false) →
      scanLoop ip rip lp rp l acc =
        (match lastMatch (isFallback ip rip rp) l with
         | some e => ("USERID", "UNIX : " ++ e.ident)
         | none => acc) := by
  intro l
  induction l with
  | nil => intro acc _; simp [scanLoop, lastMatch]
  | cons a rest ih =>
    intro acc h
    have ha' : isExact ip lp rp a = false := h a (by simp)
    have hrest : ∀ x ∈ rest, isExact ip lp rp x = false :=
      fun x hx => h x (List.mem_cons_of_mem _ hx)
    cases ha : a.sock with
    | none =>
      have hfa : isFallback ip rip rp a = false := by simp [isFallback, ha]
      rw [show scanLoop ip rip lp rp (a :: rest) acc
            = scanLoop ip rip lp rp rest acc by simp [scanLoop, ha]]
      rw [ih acc hrest]
      cases hlast : lastMatch (isFallback ip rip rp) rest <;>
        simp [lastMatch, hlast, hfa]
    | some pSock =>
      have hx : exactMatch pSock ip lp rp = false := by
        simpa [isExact, ha] using ha'
      by_cases hf : fallbackMatch pSock ip rip rp = true
      · have hfa : isFallback ip rip rp a = true := by simp [isFallback, ha, hf]
        rw [show scanLoop ip rip lp rp (a :: rest) acc
              = scanLoop ip rip lp rp rest ("USERID", "UNIX : " ++ a.ident) by
            simp [scanLoop, ha, hx, hf]]
        rw [ih _ hrest]
        cases hlast : lastMatch (isFallback ip rip rp) rest <;>
          simp [lastMatch, hlast, hfa]
      · have hfa : isFallback ip rip rp a = false := by
          simp only [isFallback, ha]; exact Bool.eq_false_iff.mpr hf
        rw [show scanLoop ip rip lp rp (a :: rest) acc
              = scanLoop ip rip lp rp rest acc by simp [scanLoop, ha, hx, hf]]
        rw [ih acc hrest]
        cases hlast : lastMatch (isFallback ip rip rp) rest <;>
          simp [lastMatch, hlast, hfa]

/-- Entries with a null socket are invisible to the scan. -/
theorem scanLoop_filter_isSome (ip rip : String) (lp rp : Nat) :
    ∀ (l : List NetEntry) (acc : String × String),
      scanLoop ip rip lp rp l acc
        = scanLoop ip rip lp rp (l.filter (fun e => e.sock.isSome)) acc := by
  intro l
  induction l with
  | nil => intro acc; rfl
  | cons a rest ih =>
    intro acc
    cases ha : a.sock with
    | none => simp [scanLoop, ha, List.filter_cons, ih acc]
    | some pSock =>
      by_cases hx : exactMatch pSock ip lp rp = true
      · simp [scanLoop, ha, hx, List.filter_cons]
      · by_cases hf : fallbackMatch pSock ip rip rp = true
        · simp [scanLoop, ha, hx, hf, List.filter_cons, ih]
        · simp [scanLoop, ha, hx, hf, List.filter_cons, ih acc]

/-- The scan either keeps the accumulated kind or reports `USERID`. -/
theorem scanLoop_fst (ip rip : String) (lp rp : Nat) :
    ∀ (l : List NetEntry) (acc : String × String),
      (scanLoop ip rip lp rp l acc).1 = acc.1 ∨
      (scanLoop ip rip lp rp l acc).1 = "USERID" := by
  intro l
  induction l with
  | nil => intro acc; left; rfl
  | cons a rest ih =>
    intro acc
    cases ha : a.sock with
    | none => simpa [scanLoop, ha] using ih acc
    | some pSock =>
      by_cases hx : exactMatch pSock ip lp rp = true
      · right; simp [scanLoop, ha, hx]
      · by_cases hf : fallbackMatch pSock ip rip rp = true
        · have := ih ("USERID", "UNIX : " ++ a.ident)
          simp [scanLoop, ha, hx, hf]
          rcases this with h | h
          · right; simpa using h
          · right; exact h
        · simpa [scanLoop, ha, hx, hf] using ih acc

/-- If nothing in the snapshot satisfies `P`, there is no last match. -/
theorem lastMatch_eq_none (P : NetEntry → Bool) :
    ∀ (l : List NetEntry), (∀ x ∈ l, P x = false) → lastMatch P l = none := by
  intro l
  induction l with
  | nil => intro _; rfl
  | cons a rest ih =>
    intro h
    have := ih fun x hx => h x (List.mem_cons_of_mem _ hx)
    simp [lastMatch, this, h a (by simp)]

/-- Unfolding `GetResponse` when both conversions were assigned. -/
theorem GetResponse_parse (sLine sSocketIP sRemoteIP : String) (lp rp : Nat)
    (snapshot : List NetEntry) (h : sscanfHuHu sLine = (some lp, some rp)) :
    GetResponse sLine sSocketIP sRemoteIP snapshot
      = mkReply lp rp
          (scanLoop sSocketIP sRemoteIP lp rp snapshot ("ERROR", "NO-USER")).1
          (scanLoop sSocketIP sRemoteIP lp rp snapshot ("ERROR", "NO-USER")).2 := by
  unfold GetResponse
  rw [h]

/-- Unfolding `GetResponse` when `sscanf` fell short of two assignments: the
reply reports INVALID-PORT with the partially assigned ports (0 defaults),
whatever the snapshot. -/
theorem GetResponse_fail (sLine sSocketIP sRemoteIP : String)
    (snapshot : List NetEntry) (a b : Option Nat)
    (hs : sscanfHuHu sLine = (a, b)) (h : a = none ∨ b = none) :
    GetResponse sLine sSocketIP sRemoteIP snapshot
      = mkReply (a.getD 0) (b.getD 0) "ERROR" "INVALID-PORT" := by
  unfold GetResponse
  rw [hs]
  rcases h with h | h <;> subst h
  · cases b <;> rfl
  · cases a <;> rfl

/-! ## Lifecycle lemmas -/

/-- `IncreaseUseCount` always leaves `insert` behind (a no-op insert when the
consumer is already present). -/
theorem IncreaseUseCount_snd (s : Finset Nat) (n : Nat) :
    (IncreaseUseCount s n).2 = insert n s := by
  by_cases h : n ∈ s
  · simp only [IncreaseUseCount, if_pos h]
    exact (Finset.insert_eq_self.mpr h).symm
  · simp only [IncreaseUseCount, if_neg h]

/-- Running one step distributes over `run` of a cons. -/
theorem run_cons (st : ModState) (op : Op) (ops : List Op) :
    run st (op :: ops) = run (stepOp st op) ops := rfl

/-- `run` distributes over append. -/
theorem run_append (st : ModState) (a b : List Op) :
    run st (a ++ b) = run (run st a) b := by
  simp [run, List.foldl_append]

/-- Registering (with the listener already open) only accumulates consumers:
no open/close events, no flag change. -/
theorem run_regs :
    ∀ (l : List Nat) (st : ModState) (S : Finset Nat), st.identServer = some S →
      run st (l.map (fun n => Op.reg n true))
        = { st with identServer := some (S ∪ l.toFinset) } := by
  intro l
  induction l with
  | nil =>
    intro st S h
    cases st
    simp_all [run]
  | cons n rest ih =>
    intro st S h
    have hstep : stepOp st (Op.reg n true) = { st with identServer := some (insert n S) } := by
      simp [stepOp, h, IncreaseUseCount_snd]
    rw [List.map_cons, run_cons, hstep, ih _ (insert n S) rfl]
    cases st
    simp [List.toFinset_cons, Finset.insert_union, Finset.union_insert]

/-- Deregistering every registered consumer, in any order presented as a list
holding exactly the consumer set: the listener closes exactly once, at the
last deregistration. -/
theorem run_deregs :
    ∀ (d : List Nat) (st : ModState), d ≠ [] → d.Nodup →
      st.identServer = some d.toFinset →
      run st (d.map Op.dereg)
        = { st with identServer := none, closes := st.closes + 1 } := by
  intro d
  induction d with
  | nil => intro st h _ _; exact absurd rfl h
  | cons a rest ih =>
    intro st _ hnd h
    have hna : a ∉ rest.toFinset := by
      rw [List.mem_toFinset]; exact (List.nodup_cons.mp hnd).1
    have hnd' : rest.Nodup := (List.nodup_cons.mp hnd).2
    have herase : ((a :: rest).toFinset).erase a = rest.toFinset := by
      rw [List.toFinset_cons, Finset.erase_insert hna]
    by_cases hr : rest = []
    · subst hr
      have hstep : stepOp st (Op.dereg a)
          = { st with identServer := none, closes := st.closes + 1 } := by
        simp [stepOp, h, DecreaseUseCount, herase]
      rw [List.map_cons, run_cons, hstep]
      rfl
    · have hne : rest.toFinset ≠ ∅ := by
        simpa [List.toFinset_eq_empty_iff] using hr
      have hstep : stepOp st (Op.dereg a)
          = { st with identServer := some rest.toFinset } := by
        simp [stepOp, h, DecreaseUseCount, Finset.erase_eq_of_not_mem hna, hne]
      rw [List.map_cons, run_cons, hstep, ih _ hr hnd' rfl]

/-- Every lifecycle step preserves the open-iff-in-use invariant. -/
theorem stepOp_inv (st : ModState) (op : Op) (h : listenerInv st) :
    listenerInv (stepOp st op) := by
  cases op with
  | reg n bindOk =>
    cases hs : st.identServer with
    | none =>
      cases bindOk
      · simp [stepOp, hs, listenerInv, listenerOpen, activeSet]
      · simp [stepOp, hs, listenerInv, listenerOpen, activeSet, IncreaseUseCount,
          Finset.insert_ne_empty]
    | some s =>
      simp [stepOp, hs, listenerInv, listenerOpen, activeSet, IncreaseUseCount_snd,
        Finset.insert_ne_empty]
  | dereg n =>
    cases hs : st.identServer with
    | none => simpa [stepOp, hs] using h
    | some s =>
      by_cases he : (DecreaseUseCount s n).2 = ∅
      · simp [stepOp, hs, he, listenerInv, listenerOpen, activeSet]
      · simp [stepOp, hs, he, listenerInv, listenerOpen, activeSet]

/-- Registering `n :: rest` (all binds succeeding) from the initial state:
one single open event, all consumers collected, flag clear, no close. -/
theorem run_regs_initial (n : Nat) (rest : List Nat) :
    run initState ((n :: rest).map (fun k => Op.reg k true))
      = ⟨some ((n :: rest).toFinset), false, 1, 0⟩ := by
  have hstep : stepOp initState (Op.reg n true) = ⟨some (insert n ∅), false, 1, 0⟩ := by
    simp [stepOp, initState, IncreaseUseCount]
  rw [List.map_cons, run_cons, hstep, run_regs rest _ (insert n ∅) rfl]
  simp [List.toFinset_cons, ← Finset.insert_eq]

/-- Registering all of `l` (distinct, binds succeeding) and then deregistering
a permutation `d` of it: exactly one open and one close, ending closed. -/
theorem one_open_one_close (l d : List Nat) (hl : l ≠ []) (hnd : l.Nodup)
    (hperm : d.Perm l) :
    run initState (l.map (fun n => Op.reg n true) ++ d.map Op.dereg)
      = ⟨none, false, 1, 1⟩ := by
  cases l with
  | nil => exact absurd rfl hl
  | cons n rest =>
    have hd : d ≠ [] := by
      intro h0
      have := hperm.length_eq
      rw [h0] at this
      simp at this
    have hdnd : d.Nodup := hperm.symm.nodup hnd
    have htf : d.toFinset = (n :: rest).toFinset := List.toFinset_eq_of_perm _ _ hperm
    rw [run_append, run_regs_initial, run_deregs d _ hd hdnd (by rw [htf])]

/-! ## Concrete snapshots used in examples -/

/-- The registry record of the spec's end-to-end examples. -/
def aliceEntry : NetEntry := ⟨some ⟨"10.0.0.5", 6667, "1.2.3.4", 6697⟩, "alice"⟩

/-- A fallback-only record (local port 2222) owned by alice. -/
def fbAlice : NetEntry := ⟨some ⟨"10.0.0.5", 2222, "1.2.3.4", 6697⟩, "alice"⟩

/-- A fallback-only record (local port 3333) owned by bob. -/
def fbBob : NetEntry := ⟨some ⟨"10.0.0.5", 3333, "1.2.3.4", 6697⟩, "bob"⟩

/-- Claim C8's comparison written from the spec's own words (for refutation):
strip a literal leading "::ffff:" from each side, then exact equality. -/
def specStrip (s : String) : String :=
  if s.data.take mappedV6.data.length == mappedV6.data then
    String.mk (s.data.drop mappedV6.data.length)
  else s

/-- Claim C8's stated relation: equal after independently stripping an
optional literal "::ffff:" from each side. -/
def specAddressEquivalent (a b : String) : Bool := specStrip a == specStrip b

/-! ## Claim theorems -/

/-- C1, counterexample: with no exact match and two fallback matches (alice at
local port 2222 enumerated first, bob at 3333 second) for the well-formed
query "1111, 6697", the code answers with the SECOND fallback's identity
(bob), not the first (alice): the fallback branch overwrites the provisional
answer on every hit, so a later fallback does override an earlier one. -/
theorem C1_cex :
    GetResponse "1111, 6697" "10.0.0.5" "1.2.3.4" [fbAlice, fbBob]
        = "1111, 6697 : USERID : UNIX : bob" ∧
      ("1111, 6697 : USERID : UNIX : bob" : String)
        ≠ "1111, 6697 : USERID : UNIX : alice" :=
  ⟨by decide, by decide⟩

/-- C1 (amended): for every well-formed query and every snapshot in which no
record is an exact match, Resolve returns USERID with the identity of the LAST
fallback-matching record in snapshot enumeration order — each later fallback
overrides the earlier provisional answer. -/
theorem C1_last_fallback_wins (sLine sSocketIP sRemoteIP : String) (lp rp : Nat)
    (snapshot : List NetEntry) (e : NetEntry)
    (hparse : sscanfHuHu sLine = (some lp, some rp))
    (hnoexact : ∀ x ∈ snapshot, isExact sSocketIP lp rp x = false)
    (hlast : lastMatch (isFallback sSocketIP sRemoteIP rp) snapshot = some e) :
    GetResponse sLine sSocketIP sRemoteIP snapshot
      = mkReply lp rp "USERID" ("UNIX : " ++ e.ident) := by
  rw [GetResponse_parse _ _ _ _ _ _ hparse,
    scanLoop_of_no_exact _ _ _ _ _ _ hnoexact, hlast]

/-- C1 witness: the amended theorem on the two-fallback snapshot. -/
theorem C1_last_fallback_wins_w :
    GetResponse "1111, 6697" "10.0.0.5" "1.2.3.4" [fbAlice, fbBob]
      = mkReply 1111 6697 "USERID" ("UNIX : " ++ "bob") :=
  C1_last_fallback_wins "1111, 6697" "10.0.0.5" "1.2.3.4" 1111 6697
    [fbAlice, fbBob] fbBob (by decide) (by decide) (by decide)

/-- C2: an exact match (local port, remote port, and address-equivalent local
IP) is authoritative: whenever the query parses and `e` is the exact-match
record found in the snapshot, Resolve returns USERID with `e`'s identity,
regardless of fallback-matching records before or after it (the scan stops at
`e`: `List.find?` is the first hit). -/
theorem C2_exact_match_wins (sLine sSocketIP sRemoteIP : String) (lp rp : Nat)
    (snapshot : List NetEntry) (e : NetEntry)
    (hparse : sscanfHuHu sLine = (some lp, some rp))
    (hfind : snapshot.find? (isExact sSocketIP lp rp) = some e) :
    GetResponse sLine sSocketIP sRemoteIP snapshot
      = mkReply lp rp "USERID" ("UNIX : " ++ e.ident) := by
  rw [GetResponse_parse _ _ _ _ _ _ hparse,
    scanLoop_of_find_exact _ _ _ _ _ _ hfind]

/-- C2 witness: an exact match enumerated AFTER a fallback match still wins. -/
theorem C2_exact_match_wins_w :
    GetResponse "6667, 6697" "10.0.0.5" "1.2.3.4" [fbBob, aliceEntry]
      = mkReply 6667 6697 "USERID" ("UNIX : " ++ "alice") :=
  C2_exact_match_wins "6667, 6697" "10.0.0.5" "1.2.3.4" 6667 6697
    [fbBob, aliceEntry] aliceEntry (by decide) (by decide)

/-- C3, counterexample: on the one-record registry of the claim, the request
"9999, 6697" fallback-matches the record (remote IP, remote port and local IP
all agree; only the local port differs), so the code replies
"9999, 6697 : USERID : UNIX : alice" — not "9999, 6697 : ERROR : NO-USER" as
the claim states. -/
theorem C3_cex :
    GetResponse "9999, 6697" "10.0.0.5" "1.2.3.4" [aliceEntry]
        = "9999, 6697 : USERID : UNIX : alice" ∧
      ("9999, 6697 : USERID : UNIX : alice" : String)
        ≠ "9999, 6697 : ERROR : NO-USER" :=
  ⟨by decide, by decide⟩

/-- C3 (amended): on the one-record registry, request "6667, 6697" yields
exactly "6667, 6697 : USERID : UNIX : alice" (as claimed), and request
"9999, 6697" yields exactly "9999, 6697 : USERID : UNIX : alice" (fallback
match; the claim expected NO-USER). -/
theorem C3_end_to_end :
    GetResponse "6667, 6697" "10.0.0.5" "1.2.3.4" [aliceEntry]
        = "6667, 6697 : USERID : UNIX : alice" ∧
      GetResponse "9999, 6697" "10.0.0.5" "1.2.3.4" [aliceEntry]
        = "9999, 6697 : USERID : UNIX : alice" :=
  ⟨by decide, by decide⟩

/-- C4, counterexample: two independent failures of the claim. (i) A line
with extra trailing tokens after a valid `<uint16> , <uint16>` pattern is NOT
rejected — `sscanf` stops after its two conversions succeed, so
"6667, 6697 trailing junk" resolves against the snapshot like "6667, 6697".
(ii) On the missing-comma line "6667 6697" the reply's local-port field is NOT
0: `sscanf` already assigned `uLocalPort = 6667` when the first `%hu`
completed, before the literal `,` failed, so the reply is
"6667, 0 : ERROR : INVALID-PORT". -/
theorem C4_cex :
    GetResponse "6667, 6697 trailing junk" "10.0.0.5" "1.2.3.4" [aliceEntry]
        = "6667, 6697 : USERID : UNIX : alice" ∧
      GetResponse "6667 6697" "10.0.0.5" "1.2.3.4" [aliceEntry]
        = "6667, 0 : ERROR : INVALID-PORT" ∧
      ("6667, 0 : ERROR : INVALID-PORT" : String) ≠ "0, 0 : ERROR : INVALID-PORT" :=
  ⟨by decide, by decide, by decide⟩

/-- C4 (amended): for every input line on which the `sscanf` parse of
"%hu , %hu" stops before assigning the second port (non-numeric first token,
missing comma, …) — but NOT for lines that merely carry trailing content after
a valid `<uint16> , <uint16>` pattern, which are accepted — Resolve returns
ERROR with detail INVALID-PORT, independent of the snapshot; the reply's
local-port field carries whatever the first conversion assigned before the
failure (0 when nothing was assigned) and its remote-port field is 0. -/
theorem C4_invalid_port (sLine sSocketIP sRemoteIP : String)
    (snapshot : List NetEntry) (a : Option Nat)
    (h : sscanfHuHu sLine = (a, none)) :
    GetResponse sLine sSocketIP sRemoteIP snapshot
      = mkReply (a.getD 0) 0 "ERROR" "INVALID-PORT" :=
  GetResponse_fail sLine sSocketIP sRemoteIP snapshot a none h (Or.inr rfl)

/-- C4 witness: a missing comma stops the parse after the first assignment,
whatever the snapshot holds. -/
theorem C4_invalid_port_w :
    GetResponse "6667 6697" "10.0.0.5" "1.2.3.4" [aliceEntry]
      = "6667, 0 : ERROR : INVALID-PORT" :=
  (C4_invalid_port "6667 6697" "10.0.0.5" "1.2.3.4" [aliceEntry]
    (some 6667) (by decide)).trans (by decide)

/-- C5: the listener state machine keeps "listening socket open iff consumer
set non-empty" invariant under every step; a registration from the closed
state (bind succeeding) opens the listener with exactly one open event and the
one-element consumer set; a deregistration from the one-element set closes it
with exactly one close event; and registering N distinct consumers then
deregistering all of them in any order produces exactly one open and one
close. -/
theorem C5_refcounted_listener :
    (∀ (st : ModState) (op : Op), listenerInv st → listenerInv (stepOp st op)) ∧
      (∀ (st : ModState) (n : Nat), st.identServer = none →
        listenerOpen (stepOp st (Op.reg n true)) = true ∧
          activeSet (stepOp st (Op.reg n true)) = {n} ∧
          (stepOp st (Op.reg n true)).opens = st.opens + 1 ∧
          (stepOp st (Op.reg n true)).closes = st.closes) ∧
      (∀ (st : ModState) (n : Nat), st.identServer = some {n} →
        listenerOpen (stepOp st (Op.dereg n)) = false ∧
          (stepOp st (Op.dereg n)).closes = st.closes + 1 ∧
          (stepOp st (Op.dereg n)).opens = st.opens) ∧
      (∀ (l d : List Nat), l ≠ [] → l.Nodup → d.Perm l →
        (run initState (l.map (fun n => Op.reg n true) ++ d.map Op.dereg)).opens = 1 ∧
          (run initState (l.map (fun n => Op.reg n true) ++ d.map Op.dereg)).closes = 1) := by
  refine ⟨stepOp_inv, ?_, ?_, ?_⟩
  · intro st n h
    refine ⟨?_, ?_, ?_, ?_⟩ <;>
      simp [stepOp, h, listenerOpen, activeSet, IncreaseUseCount]
  · intro st n h
    refine ⟨?_, ?_, ?_⟩ <;>
      simp [stepOp, h, DecreaseUseCount, Finset.erase_singleton, listenerOpen]
  · intro l d hl hnd hperm
    rw [one_open_one_close l d hl hnd hperm]
    exact ⟨rfl, rfl⟩

/-- C5 witness: two distinct consumers registered, deregistered in reverse
order: one open, one close. -/
theorem C5_refcounted_listener_w :
    (run initState ([1, 2].map (fun n => Op.reg n true) ++ [2, 1].map Op.dereg)).opens = 1 ∧
      (run initState ([1, 2].map (fun n => Op.reg n true) ++ [2, 1].map Op.dereg)).closes = 1 :=
  C5_refcounted_listener.2.2.2 [1, 2] [2, 1] (by decide) (by decide) (by decide)

/-- C6: a registration that finds the consumer set empty and whose bind
attempt fails leaves the state unchanged except for setting the sticky
"last bind attempt failed" flag (listener stays closed, consumer not added);
the flag can only be cleared by a step that is a 0-to-1 registration with a
successful bind; and such a step does clear it. -/
theorem C6_bind_failure_sticky :
    (∀ (st : ModState) (n : Nat), st.identServer = none →
      stepOp st (Op.reg n false) = { st with listenFailed := true }) ∧
      (∀ (st : ModState) (op : Op), st.listenFailed = true →
        (stepOp st op).listenFailed = false →
        st.identServer = none ∧ ∃ m, op = Op.reg m true) ∧
      (∀ (st : ModState) (m : Nat), st.identServer = none →
        (stepOp st (Op.reg m true)).listenFailed = false) := by
  refine ⟨?_, ?_, ?_⟩
  · intro st n h
    simp [stepOp, h]
  · intro st op h1 h2
    cases op with
    | reg n b =>
      cases hs : st.identServer with
      | none =>
        cases b with
        | true => exact ⟨rfl, n, rfl⟩
        | false => simp [stepOp, hs] at h2
      | some s => simp [stepOp, hs, h1] at h2
    | dereg n =>
      cases hs : st.identServer with
      | none => rw [stepOp, hs] at h2; exact absurd h2 (by simp [h1])
      | some s =>
        by_cases he : (DecreaseUseCount s n).2 = ∅ <;>
          simp [stepOp, hs, he, h1] at h2
  · intro st m h
    simp [stepOp, h]

/-- C6 witness: a failing bind from the initial state sets the flag; from the
flagged closed state a successful bind clears it, and any step that clears it
is such a registration. -/
theorem C6_bind_failure_sticky_w :
    stepOp initState (Op.reg 7 false) = { initState with listenFailed := true } ∧
      (stepOp ⟨none, true, 0, 0⟩ (Op.reg 7 true)).listenFailed = false ∧
      ((⟨none, true, 0, 0⟩ : ModState).identServer = none ∧ ∃ m, Op.reg 7 true = Op.reg m true) :=
  ⟨C6_bind_failure_sticky.1 initState 7 rfl,
    C6_bind_failure_sticky.2.2 ⟨none, true, 0, 0⟩ 7 rfl,
    C6_bind_failure_sticky.2.1 ⟨none, true, 0, 0⟩ (Op.reg 7 true) rfl (by decide)⟩

/-- C7: a well-formed query evaluated against a snapshot holding neither an
exact-match nor a fallback-match record (in particular the empty snapshot)
yields ERROR / NO-USER carrying the parsed ports. -/
theorem C7_no_user (sLine sSocketIP sRemoteIP : String) (lp rp : Nat)
    (snapshot : List NetEntry)
    (hparse : sscanfHuHu sLine = (some lp, some rp))
    (hnone : ∀ x ∈ snapshot, isExact sSocketIP lp rp x = false
        ∧ isFallback sSocketIP sRemoteIP rp x = false) :
    GetResponse sLine sSocketIP sRemoteIP snapshot = mkReply lp rp "ERROR" "NO-USER" := by
  rw [GetResponse_parse _ _ _ _ _ _ hparse,
    scanLoop_of_no_exact _ _ _ _ _ _ (fun x hx => (hnone x hx).1),
    lastMatch_eq_none _ _ (fun x hx => (hnone x hx).2)]

/-- C7 witness: the one-record registry matches neither criterion when the
remote port differs. -/
theorem C7_no_user_w :
    GetResponse "6667, 7000" "10.0.0.5" "1.2.3.4" [aliceEntry]
      = mkReply 6667 7000 "ERROR" "NO-USER" :=
  C7_no_user "6667, 7000" "10.0.0.5" "1.2.3.4" 6667 7000 [aliceEntry]
    (by decide) (by decide)

/-- C8, counterexample: the code's comparison is case-insensitive (ZNC
`CString::Equals` / `TrimPrefix` default to `strcasecmp`), so
"::FFFF:10.0.0.1" is accepted as equivalent to "10.0.0.1", while the claim's
rule — strip a literal "::ffff:" then require equality — rejects the pair. -/
theorem C8_cex :
    AreIPStringsEqual "::FFFF:10.0.0.1" "10.0.0.1" = true ∧
      specAddressEquivalent "::FFFF:10.0.0.1" "10.0.0.1" = false :=
  ⟨by decide, by decide⟩

/-- C8 (amended): `AreIPStringsEqual` holds exactly when the two sides are
CASE-INSENSITIVELY equal after stripping an optional leading "::ffff:" marker,
itself matched case-insensitively, from each side; in particular
"::ffff:10.0.0.1" (and "::FFFF:10.0.0.1") is equivalent to "10.0.0.1" and
"10.0.0.1" is not equivalent to "10.0.0.2"; the relation is symmetric for all
strings. -/
theorem C8_address_equiv :
    (∀ a b : String, AreIPStringsEqual a b = AreIPStringsEqual b a) ∧
      AreIPStringsEqual "::ffff:10.0.0.1" "10.0.0.1" = true ∧
      AreIPStringsEqual "10.0.0.1" "10.0.0.2" = false ∧
      AreIPStringsEqual "::FFFF:10.0.0.1" "10.0.0.1" = true := by
  refine ⟨?_, by decide, by decide, by decide⟩
  intro a b
  unfold AreIPStringsEqual strCaseEq
  rw [Bool.eq_iff_iff]
  simp only [beq_iff_eq]
  exact eq_comm

/-- C9: membership idempotence. Re-registering a present consumer returns
`false` ("already registered") and leaves the set untouched; deregistering an
absent consumer returns `false` ("was not registered") and leaves the set
untouched; and at the module level, deregistering an absent consumer (from any
state satisfying the open-iff-in-use invariant) leaves the whole state —
listener open/closed status included — unchanged. -/
theorem C9_membership_idempotent :
    (∀ (s : Finset Nat) (n : Nat), n ∈ s → IncreaseUseCount s n = (false, s)) ∧
      (∀ (s : Finset Nat) (n : Nat), n ∉ s → DecreaseUseCount s n = (false, s)) ∧
      (∀ (st : ModState) (n : Nat), listenerInv st → n ∉ activeSet st →
        stepOp st (Op.dereg n) = st) := by
  refine ⟨?_, ?_, ?_⟩
  · intro s n h
    simp [IncreaseUseCount, h]
  · intro s n h
    simp [DecreaseUseCount, h, Finset.erase_eq_of_not_mem h]
  · intro st n hinv h
    obtain ⟨ids, lf, op, cl⟩ := st
    cases ids with
    | none => rfl
    | some s =>
      have hsne : s ≠ ∅ := by
        have h2 := hinv.mp
        simp [listenerOpen, activeSet] at h2
        exact h2
      have hns : n ∉ s := by
        simpa [activeSet] using h
      simp [stepOp, DecreaseUseCount, Finset.erase_eq_of_not_mem hns, hsne]

/-- C9 witness: re-register a present consumer, deregister an absent one, and
an absent-consumer deregistration at the module level. -/
theorem C9_membership_idempotent_w :
    IncreaseUseCount {1} 1 = (false, {1}) ∧
      DecreaseUseCount {1} 2 = (false, {1}) ∧
      stepOp ⟨some {1}, false, 1, 0⟩ (Op.dereg 2) = ⟨some {1}, false, 1, 0⟩ :=
  ⟨C9_membership_idempotent.1 {1} 1 (by decide),
    C9_membership_idempotent.2.1 {1} 2 (by decide),
    C9_membership_idempotent.2.2 ⟨some {1}, false, 1, 0⟩ 2
      (by simp [listenerInv, listenerOpen, activeSet]) (by decide)⟩

/-- C10 (implicit): a registered network whose IRC socket is null is skipped
before either match criterion is evaluated — the resolver's answer on any
snapshot equals its answer on the snapshot with the null-socket entries
removed — and Resolve stays total in their presence: the reply is always a
well-formed `<lp>, <rp> : <kind> : <detail>` line with kind ERROR or USERID. -/
theorem C10_null_sockets_skipped :
    ∀ (sLine sSocketIP sRemoteIP : String) (snapshot : List NetEntry),
      GetResponse sLine sSocketIP sRemoteIP snapshot
          = GetResponse sLine sSocketIP sRemoteIP
              (snapshot.filter (fun e => e.sock.isSome)) ∧
        ∃ lp rp kind detail,
          GetResponse sLine sSocketIP sRemoteIP snapshot = mkReply lp rp kind detail
            ∧ (kind = "ERROR" ∨ kind = "USERID") := by
  intro sLine ip rip snap
  rcases hp : sscanfHuHu sLine with ⟨a, b⟩
  rcases b with _ | rp
  · constructor
    · rw [GetResponse_fail sLine ip rip snap a none hp (Or.inr rfl),
        GetResponse_fail sLine ip rip (snap.filter (fun e => e.sock.isSome))
          a none hp (Or.inr rfl)]
    · exact ⟨a.getD 0, 0, "ERROR", "INVALID-PORT",
        GetResponse_fail sLine ip rip snap a none hp (Or.inr rfl), Or.inl rfl⟩
  · rcases a with _ | lp
    · constructor
      · rw [GetResponse_fail sLine ip rip snap none (some rp) hp (Or.inl rfl),
          GetResponse_fail sLine ip rip (snap.filter (fun e => e.sock.isSome))
            none (some rp) hp (Or.inl rfl)]
      · exact ⟨0, rp, "ERROR", "INVALID-PORT",
          GetResponse_fail sLine ip rip snap none (some rp) hp (Or.inl rfl), Or.inl rfl⟩
    · constructor
      · rw [GetResponse_parse sLine ip rip lp rp snap hp,
          GetResponse_parse sLine ip rip lp rp _ hp,
          scanLoop_filter_isSome ip rip lp rp snap ("ERROR", "NO-USER")]
      · refine ⟨lp, rp,
          (scanLoop ip rip lp rp snap ("ERROR", "NO-USER")).1,
          (scanLoop ip rip lp rp snap ("ERROR", "NO-USER")).2,
          GetResponse_parse sLine ip rip lp rp snap hp, ?_⟩
        rcases scanLoop_fst ip rip lp rp snap ("ERROR", "NO-USER") with h | h
        · exact Or.inl h
        · exact Or.inr h

end IdentServ
